import Mathlib

/-!
# Verification of the TDA SDK client layer

Shallow embedding of the `tda-sdk` Rust crate (files `src/lib.rs`,
`src/params.rs`, `src/responses.rs`) and proofs about the claims of its
specification.

Modelling conventions:
* Wall-clock time (`Utc::now().naive_utc().timestamp_millis()`) is passed as an
  explicit `now : Int` argument (i64 milliseconds since epoch).
* The HTTP transport is an oracle `Request → HttpResponse`; the body read
  (`response.into_string()`) may fail, modelled by `Except IoErr String`.
* `serde_json::from_str` is modelled as JSON text parsing (`parseJson`)
  followed by a per-schema decoder that mirrors the serde derives:
  camelCase renames where `#[serde(rename_all = "camelCase")]` is present,
  `Option` fields tolerate absence, all other fields are required, and
  unknown fields are ignored.
* JSON numbers are modelled as integers (`Json.num : Int`): the claims under
  study never exercise floating-point payloads, so the `f64` fields of the
  response schemas are modelled as integral numbers.
* `panic!` is modelled by the `MethodResult.fatal` outcome, which carries the
  panic message and is produced before any request is issued.
-/

/-- Model of a JSON value (`serde_json::Value`), with numbers restricted to
integers as explained in the header. -/
inductive Json where
  | null : Json
  | bool (b : Bool) : Json
  | num (n : Int) : Json
  | str (s : String) : Json
  | arr (elems : List Json) : Json
  | obj (fields : List (String × Json)) : Json

/-- Serde deserialization errors are modelled by their message. -/
abbrev SerdeError := String

/-- I/O errors (failed body reads) are modelled by their message. -/
abbrev IoErr := String

/-- The opening-brace character of JSON object syntax. -/
def lbrace : Char := Char.ofNat 123

/-- The closing-brace character of JSON object syntax. -/
def rbrace : Char := Char.ofNat 125

/-- JSON insignificant whitespace. -/
def jsonWs (c : Char) : Bool := c == ' ' || c == '\n' || c == '\t' || c == '\r'

/-- Drop leading JSON whitespace. -/
def skipWs : List Char → List Char
  | [] => []
  | c :: cs => if jsonWs c then skipWs cs else c :: cs

/-- Parse the remainder of a JSON string literal (after the opening quote),
returning the decoded characters and the rest of the input.  The escapes
`\" \\ \/ \n \t \r` are supported; other escapes are outside the model. -/
def parseStringChars : List Char → Option (List Char × List Char)
  | [] => none
  | '\\' :: rest =>
    match rest with
    | [] => none
    | e :: rest2 =>
      let dec : Option Char :=
        if e == '"' then some '"'
        else if e == '\\' then some '\\'
        else if e == '/' then some '/'
        else if e == 'n' then some '\n'
        else if e == 't' then some '\t'
        else if e == 'r' then some '\r'
        else none
      match dec with
      | none => none
      | some c =>
        match parseStringChars rest2 with
        | none => none
        | some (s, r) => some (c :: s, r)
  | c :: cs =>
    if c == '"' then some ([], cs)
    else
      match parseStringChars cs with
      | none => none
      | some (s, r) => some (c :: s, r)

/-- Take a maximal run of decimal digits. -/
def takeDigits : List Char → (List Char × List Char)
  | [] => ([], [])
  | c :: cs =>
    if c.isDigit then
      let r := takeDigits cs
      (c :: r.1, r.2)
    else ([], c :: cs)

/-- Decimal digits to a natural number. -/
def digitsToNat (ds : List Char) : Nat :=
  ds.foldl (fun a c => a * 10 + (c.toNat - 48)) 0

/-- Parse a JSON integer literal (optional minus sign and digits).  A fraction
or exponent part makes the parse fail: floating-point literals are outside the
model, as explained in the header. -/
def parseIntLit (cs : List Char) : Option (Int × List Char) :=
  let core : List Char → Option (Nat × List Char) := fun l =>
    match takeDigits l with
    | ([], _) => none
    | (ds, r) =>
      match r with
      | [] => some (digitsToNat ds, [])
      | c :: rest =>
        if c == '.' || c == 'e' || c == 'E' then none
        else some (digitsToNat ds, c :: rest)
  match cs with
  | '-' :: rest =>
    match core rest with
    | none => none
    | some (n, r) => some (-(Int.ofNat n), r)
  | _ =>
    match core cs with
    | none => none
    | some (n, r) => some (Int.ofNat n, r)

mutual

/-- Parse one JSON value; `fuel` bounds the recursion depth. -/
def parseVal : Nat → List Char → Option (Json × List Char)
  | 0, _ => none
  | Nat.succ fuel, cs =>
    match skipWs cs with
    | 'n' :: 'u' :: 'l' :: 'l' :: rest => some (.null, rest)
    | 't' :: 'r' :: 'u' :: 'e' :: rest => some (.bool true, rest)
    | 'f' :: 'a' :: 'l' :: 's' :: 'e' :: rest => some (.bool false, rest)
    | '"' :: rest =>
      match parseStringChars rest with
      | none => none
      | some (s, r) => some (.str (String.mk s), r)
    | '[' :: rest =>
      match skipWs rest with
      | ']' :: r => some (.arr [], r)
      | cs2 =>
        match parseElems fuel cs2 with
        | none => none
        | some (xs, r) => some (.arr xs, r)
    | c :: rest =>
      if c == lbrace then
        match skipWs rest with
        | [] => none
        | c2 :: r =>
          if c2 == rbrace then some (.obj [], r)
          else
            match parseMembers fuel (c2 :: r) with
            | none => none
            | some (fs, r2) => some (.obj fs, r2)
      else
        match parseIntLit (c :: rest) with
        | none => none
        | some (n, r) => some (.num n, r)
    | [] => none

/-- Parse the elements of a non-empty JSON array, up to and including the
closing bracket. -/
def parseElems : Nat → List Char → Option (List Json × List Char)
  | 0, _ => none
  | Nat.succ fuel, cs =>
    match parseVal fuel cs with
    | none => none
    | some (x, r) =>
      match skipWs r with
      | ',' :: r2 =>
        match parseElems fuel r2 with
        | none => none
        | some (xs, r3) => some (x :: xs, r3)
      | ']' :: r2 => some ([x], r2)
      | _ => none

/-- Parse the members of a non-empty JSON object, up to and including the
closing brace. -/
def parseMembers : Nat → List Char → Option (List (String × Json) × List Char)
  | 0, _ => none
  | Nat.succ fuel, cs =>
    match skipWs cs with
    | '"' :: rest =>
      match parseStringChars rest with
      | none => none
      | some (k, r) =>
        match skipWs r with
        | ':' :: r2 =>
          match parseVal fuel r2 with
          | none => none
          | some (v, r3) =>
            match skipWs r3 with
            | [] => none
            | c :: r4 =>
              if c == ',' then
                match parseMembers fuel r4 with
                | none => none
                | some (fs, r5) => some ((String.mk k, v) :: fs, r5)
              else if c == rbrace then some ([(String.mk k, v)], r4)
              else none
        | _ => none
    | _ => none

end

/-- Model of `serde_json`'s text-level parse: one JSON value followed only by
whitespace.  The fuel is generous enough for any input the claims exercise. -/
def parseJson (s : String) : Except SerdeError Json :=
  match parseVal (2 * s.length + 2) s.data with
  | none => .error "invalid JSON"
  | some (j, rest) =>
    match skipWs rest with
    | [] => .ok j
    | _ => .error "trailing characters"

/-- Extract an integral JSON number. -/
def Json.asNum? : Json → Option Int
  | .num n => some n
  | _ => none

/-- Extract a JSON string. -/
def Json.asStr? : Json → Option String
  | .str s => some s
  | _ => none

/-- Extract a JSON boolean. -/
def Json.asBool? : Json → Option Bool
  | .bool b => some b
  | _ => none

/-- Extract a non-negative JSON number as a `usize` (`Nat`); negatives are a
type error, as for serde's `usize` deserializer. -/
def Json.asNat? : Json → Option Nat
  | .num n => if n < 0 then none else some n.toNat
  | _ => none

/-- First binding of a key in an object's field list. -/
def jGet (fields : List (String × Json)) (k : String) : Option Json :=
  match fields with
  | [] => none
  | f :: fs => if f.1 == k then some f.2 else jGet fs k

/-- A field serde requires: missing or ill-typed is a deserialization error. -/
def reqField (fields : List (String × Json)) (k : String)
    (conv : Json → Option β) : Except SerdeError β :=
  match jGet fields k with
  | none => .error ("missing field " ++ k)
  | some j =>
    match conv j with
    | some v => .ok v
    | none => .error ("invalid type for field " ++ k)

/-- An `Option` field of a serde derive: absence yields `none`, an ill-typed
present value is a deserialization error. -/
def optField (fields : List (String × Json)) (k : String)
    (conv : Json → Option β) : Except SerdeError (Option β) :=
  match jGet fields k with
  | none => .ok none
  | some j =>
    match conv j with
    | some v => .ok (some v)
    | none => .error ("invalid type for field " ++ k)

/-- Require a JSON object and return its fields. -/
def asObjE : Json → Except SerdeError (List (String × Json))
  | .obj fs => .ok fs
  | _ => .error "expected an object"

/-- Apply a fallible decoder to every element of a list, failing on the first
failure. -/
def mapME (f : α → Except SerdeError β) : List α → Except SerdeError (List β)
  | [] => .ok []
  | a :: l =>
    match f a with
    | .error e => .error e
    | .ok b =>
      match mapME f l with
      | .error e => .error e
      | .ok bs => .ok (b :: bs)

/-- Decode a JSON array elementwise (serde's `Vec` deserializer). -/
def decodeArrOf (dec : Json → Except SerdeError β) :
    Json → Except SerdeError (List β)
  | .arr xs => mapME dec xs
  | _ => .error "expected an array"

/-- Embedding of `responses::AccessTokenResponse` (src/responses.rs lines
4-9). -/
structure AccessTokenResponse where
  access_token : String
  scope : String
  expires_in : Int

/-- Decoder for `AccessTokenResponse` per its serde derive (no renames, all
fields required). -/
def decodeAccessTokenResponse (j : Json) : Except SerdeError AccessTokenResponse := do
  let o ← asObjE j
  let access_token ← reqField o "access_token" Json.asStr?
  let scope ← reqField o "scope" Json.asStr?
  let expires_in ← reqField o "expires_in" Json.asNum?
  return ⟨access_token, scope, expires_in⟩

/-- Embedding of `responses::Candle` (src/responses.rs lines 20-28); the `f64`
price fields are modelled as integral JSON numbers (see the header), and the
Rust field `open` is rendered `open_` because `open` is a Lean keyword. -/
structure Candle where
  close : Int
  datetime : Nat
  high : Int
  low : Int
  open_ : Int
  volume : Int

/-- Decoder for `Candle` per its serde derive (no renames, all fields
required). -/
def decodeCandle (j : Json) : Except SerdeError Candle := do
  let o ← asObjE j
  let close ← reqField o "close" Json.asNum?
  let datetime ← reqField o "datetime" Json.asNat?
  let high ← reqField o "high" Json.asNum?
  let low ← reqField o "low" Json.asNum?
  let open_ ← reqField o "open" Json.asNum?
  let volume ← reqField o "volume" Json.asNum?
  return ⟨close, datetime, high, low, open_, volume⟩

/-- Embedding of `responses::GetPriceHistoryResponse` (src/responses.rs lines
12-17). -/
structure GetPriceHistoryResponse where
  candles : List Candle
  empty : Bool
  symbol : String

/-- Decoder for `GetPriceHistoryResponse` per its serde derive: the fields
`candles`, `empty` and `symbol` are all required (no defaults). -/
def decodeGetPriceHistoryResponse (j : Json) :
    Except SerdeError GetPriceHistoryResponse := do
  let o ← asObjE j
  let candles ← reqField o "candles" some >>= decodeArrOf decodeCandle
  let empty ← reqField o "empty" Json.asBool?
  let symbol ← reqField o "symbol" Json.asStr?
  return ⟨candles, empty, symbol⟩

/-- Embedding of `responses::Mover` (src/responses.rs lines 31-40):
`rename_all = "camelCase"`, so `total_volume` reads the wire key
`totalVolume`. -/
structure Mover where
  change : Int
  description : String
  direction : String
  last : Int
  symbol : String
  total_volume : Int

/-- Decoder for `Mover` per its serde derive. -/
def decodeMover (j : Json) : Except SerdeError Mover := do
  let o ← asObjE j
  let change ← reqField o "change" Json.asNum?
  let description ← reqField o "description" Json.asStr?
  let direction ← reqField o "direction" Json.asStr?
  let last ← reqField o "last" Json.asNum?
  let symbol ← reqField o "symbol" Json.asStr?
  let total_volume ← reqField o "totalVolume" Json.asNum?
  return ⟨change, description, direction, last, symbol, total_volume⟩
/-- Embedding of `responses::InitialBalances` (src/responses.rs); `f64` amounts are
modelled as integral JSON numbers, see the note on `Json.num`. -/
structure InitialBalances where
  account_value : Int
  accrued_interest : Int
  available_funds_non_marginable_trade : Option Int
  bond_value : Int
  buying_power : Option Int
  cash_available_for_trading : Int
  cash_available_for_withdrawal : Option Int
  cash_balance : Int
  cash_debit_call_value : Option Int
  cash_receipts : Int
  day_trading_buying_power : Option Int
  day_trading_buying_power_call : Option Int
  day_trading_equity_call : Option Int
  equity : Option Int
  equity_percentage : Option Int
  is_in_call : Bool
  liquidation_value : Int
  long_margin_value : Option Int
  long_option_market_value : Int
  long_stock_value : Option Int
  maintenance_call : Option Int
  maintenance_requirement : Option Int
  margin : Option Int
  margin_balance : Option Int
  margin_equity : Option Int
  money_market_fund : Int
  mutual_fund_value : Int
  pending_deposits : Int
  reg_t_call : Option Int
  short_balance : Option Int
  short_margin_value : Option Int
  short_option_market_value : Int
  short_stock_value : Int
  total_cash : Option Int
  unsettled_cash : Option Int

/-- Decoder for `InitialBalances` following its serde derive: camelCase wire names,
`Option` fields absent-tolerant, all other fields required. -/
def decodeInitialBalances (j : Json) : Except SerdeError InitialBalances := do
  let o ← asObjE j
  let account_value ← reqField o "accountValue" Json.asNum?
  let accrued_interest ← reqField o "accruedInterest" Json.asNum?
  let available_funds_non_marginable_trade ← optField o "availableFundsNonMarginableTrade" Json.asNum?
  let bond_value ← reqField o "bondValue" Json.asNum?
  let buying_power ← optField o "buyingPower" Json.asNum?
  let cash_available_for_trading ← reqField o "cashAvailableForTrading" Json.asNum?
  let cash_available_for_withdrawal ← optField o "cashAvailableForWithdrawal" Json.asNum?
  let cash_balance ← reqField o "cashBalance" Json.asNum?
  let cash_debit_call_value ← optField o "cashDebitCallValue" Json.asNum?
  let cash_receipts ← reqField o "cashReceipts" Json.asNum?
  let day_trading_buying_power ← optField o "dayTradingBuyingPower" Json.asNum?
  let day_trading_buying_power_call ← optField o "dayTradingBuyingPowerCall" Json.asNum?
  let day_trading_equity_call ← optField o "dayTradingEquityCall" Json.asNum?
  let equity ← optField o "equity" Json.asNum?
  let equity_percentage ← optField o "equityPercentage" Json.asNum?
  let is_in_call ← reqField o "isInCall" Json.asBool?
  let liquidation_value ← reqField o "liquidationValue" Json.asNum?
  let long_margin_value ← optField o "longMarginValue" Json.asNum?
  let long_option_market_value ← reqField o "longOptionMarketValue" Json.asNum?
  let long_stock_value ← optField o "longStockValue" Json.asNum?
  let maintenance_call ← optField o "maintenanceCall" Json.asNum?
  let maintenance_requirement ← optField o "maintenanceRequirement" Json.asNum?
  let margin ← optField o "margin" Json.asNum?
  let margin_balance ← optField o "marginBalance" Json.asNum?
  let margin_equity ← optField o "marginEquity" Json.asNum?
  let money_market_fund ← reqField o "moneyMarketFund" Json.asNum?
  let mutual_fund_value ← reqField o "mutualFundValue" Json.asNum?
  let pending_deposits ← reqField o "pendingDeposits" Json.asNum?
  let reg_t_call ← optField o "regTCall" Json.asNum?
  let short_balance ← optField o "shortBalance" Json.asNum?
  let short_margin_value ← optField o "shortMarginValue" Json.asNum?
  let short_option_market_value ← reqField o "shortOptionMarketValue" Json.asNum?
  let short_stock_value ← reqField o "shortStockValue" Json.asNum?
  let total_cash ← optField o "totalCash" Json.asNum?
  let unsettled_cash ← optField o "unsettledCash" Json.asNum?
  return ⟨account_value, accrued_interest, available_funds_non_marginable_trade, bond_value, buying_power, cash_available_for_trading, cash_available_for_withdrawal, cash_balance, cash_debit_call_value, cash_receipts, day_trading_buying_power, day_trading_buying_power_call, day_trading_equity_call, equity, equity_percentage, is_in_call, liquidation_value, long_margin_value, long_option_market_value, long_stock_value, maintenance_call, maintenance_requirement, margin, margin_balance, margin_equity, money_market_fund, mutual_fund_value, pending_deposits, reg_t_call, short_balance, short_margin_value, short_option_market_value, short_stock_value, total_cash, unsettled_cash⟩

/-- Embedding of `responses::CurrentBalances` (src/responses.rs); `f64` amounts are
modelled as integral JSON numbers, see the note on `Json.num`. -/
structure CurrentBalances where
  accrued_interest : Int
  available_funds : Option Int
  available_funds_non_marginable_trade : Option Int
  bond_value : Int
  buying_power : Option Int
  buying_power_non_marginable_trade : Option Int
  cash_available_for_trading : Option Int
  cash_available_for_withdrawal : Option Int
  cash_balance : Int
  cash_call : Option Int
  cash_debit_call_value : Option Int
  cash_receipts : Int
  day_trading_buying_power : Option Int
  equity : Option Int
  equity_percentage : Option Int
  liquidation_value : Int
  long_margin_value : Option Int
  long_market_value : Int
  long_non_marginable_market_value : Option Int
  long_option_market_value : Int
  maintenance_call : Option Int
  maintenance_requirement : Option Int
  margin_balance : Option Int
  money_market_fund : Int
  mutual_fund_value : Int
  pending_deposits : Int
  reg_t_call : Option Int
  savings : Int
  short_balance : Option Int
  short_margin_value : Option Int
  short_market_value : Int
  short_option_market_value : Int
  sma : Option Int
  total_cash : Option Int
  unsettled_cash : Option Int

/-- Decoder for `CurrentBalances` following its serde derive: camelCase wire names,
`Option` fields absent-tolerant, all other fields required. -/
def decodeCurrentBalances (j : Json) : Except SerdeError CurrentBalances := do
  let o ← asObjE j
  let accrued_interest ← reqField o "accruedInterest" Json.asNum?
  let available_funds ← optField o "availableFunds" Json.asNum?
  let available_funds_non_marginable_trade ← optField o "availableFundsNonMarginableTrade" Json.asNum?
  let bond_value ← reqField o "bondValue" Json.asNum?
  let buying_power ← optField o "buyingPower" Json.asNum?
  let buying_power_non_marginable_trade ← optField o "buyingPowerNonMarginableTrade" Json.asNum?
  let cash_available_for_trading ← optField o "cashAvailableForTrading" Json.asNum?
  let cash_available_for_withdrawal ← optField o "cashAvailableForWithdrawal" Json.asNum?
  let cash_balance ← reqField o "cashBalance" Json.asNum?
  let cash_call ← optField o "cashCall" Json.asNum?
  let cash_debit_call_value ← optField o "cashDebitCallValue" Json.asNum?
  let cash_receipts ← reqField o "cashReceipts" Json.asNum?
  let day_trading_buying_power ← optField o "dayTradingBuyingPower" Json.asNum?
  let equity ← optField o "equity" Json.asNum?
  let equity_percentage ← optField o "equityPercentage" Json.asNum?
  let liquidation_value ← reqField o "liquidationValue" Json.asNum?
  let long_margin_value ← optField o "longMarginValue" Json.asNum?
  let long_market_value ← reqField o "longMarketValue" Json.asNum?
  let long_non_marginable_market_value ← optField o "longNonMarginableMarketValue" Json.asNum?
  let long_option_market_value ← reqField o "longOptionMarketValue" Json.asNum?
  let maintenance_call ← optField o "maintenanceCall" Json.asNum?
  let maintenance_requirement ← optField o "maintenanceRequirement" Json.asNum?
  let margin_balance ← optField o "marginBalance" Json.asNum?
  let money_market_fund ← reqField o "moneyMarketFund" Json.asNum?
  let mutual_fund_value ← reqField o "mutualFundValue" Json.asNum?
  let pending_deposits ← reqField o "pendingDeposits" Json.asNum?
  let reg_t_call ← optField o "regTCall" Json.asNum?
  let savings ← reqField o "savings" Json.asNum?
  let short_balance ← optField o "shortBalance" Json.asNum?
  let short_margin_value ← optField o "shortMarginValue" Json.asNum?
  let short_market_value ← reqField o "shortMarketValue" Json.asNum?
  let short_option_market_value ← reqField o "shortOptionMarketValue" Json.asNum?
  let sma ← optField o "sma" Json.asNum?
  let total_cash ← optField o "totalCash" Json.asNum?
  let unsettled_cash ← optField o "unsettledCash" Json.asNum?
  return ⟨accrued_interest, available_funds, available_funds_non_marginable_trade, bond_value, buying_power, buying_power_non_marginable_trade, cash_available_for_trading, cash_available_for_withdrawal, cash_balance, cash_call, cash_debit_call_value, cash_receipts, day_trading_buying_power, equity, equity_percentage, liquidation_value, long_margin_value, long_market_value, long_non_marginable_market_value, long_option_market_value, maintenance_call, maintenance_requirement, margin_balance, money_market_fund, mutual_fund_value, pending_deposits, reg_t_call, savings, short_balance, short_margin_value, short_market_value, short_option_market_value, sma, total_cash, unsettled_cash⟩

/-- Embedding of `responses::ProjectedBalances` (src/responses.rs); `f64` amounts are
modelled as integral JSON numbers, see the note on `Json.num`. -/
structure ProjectedBalances where
  available_funds : Option Int
  available_funds_non_marginable_trade : Option Int
  buying_power : Option Int
  cash_available_for_trading : Option Int
  cash_available_for_withdrawal : Option Int
  day_trading_buying_power : Option Int
  day_trading_buying_power_call : Option Int
  is_in_call : Option Bool
  maintenance_call : Option Int
  reg_t_call : Option Int
  stock_buying_power : Option Int

/-- Decoder for `ProjectedBalances` following its serde derive: camelCase wire names,
`Option` fields absent-tolerant, all other fields required. -/
def decodeProjectedBalances (j : Json) : Except SerdeError ProjectedBalances := do
  let o ← asObjE j
  let available_funds ← optField o "availableFunds" Json.asNum?
  let available_funds_non_marginable_trade ← optField o "availableFundsNonMarginableTrade" Json.asNum?
  let buying_power ← optField o "buyingPower" Json.asNum?
  let cash_available_for_trading ← optField o "cashAvailableForTrading" Json.asNum?
  let cash_available_for_withdrawal ← optField o "cashAvailableForWithdrawal" Json.asNum?
  let day_trading_buying_power ← optField o "dayTradingBuyingPower" Json.asNum?
  let day_trading_buying_power_call ← optField o "dayTradingBuyingPowerCall" Json.asNum?
  let is_in_call ← optField o "isInCall" Json.asBool?
  let maintenance_call ← optField o "maintenanceCall" Json.asNum?
  let reg_t_call ← optField o "regTCall" Json.asNum?
  let stock_buying_power ← optField o "stockBuyingPower" Json.asNum?
  return ⟨available_funds, available_funds_non_marginable_trade, buying_power, cash_available_for_trading, cash_available_for_withdrawal, day_trading_buying_power, day_trading_buying_power_call, is_in_call, maintenance_call, reg_t_call, stock_buying_power⟩

/-- Embedding of `responses::SecuritiesAccount` (src/responses.rs lines
53-65): an untagged enum with the single modelled variant `MarginAccount`,
whose fields use camelCase wire names; the Rust field `type` is rendered
`type_` because `type` is a Lean keyword. -/
inductive SecuritiesAccount where
  | MarginAccount
      (type_ : String)
      (account_id : String)
      (round_trips : Nat)
      (is_day_trader : Bool)
      (is_closing_only_restricted : Bool)
      (initial_balances : InitialBalances)
      (current_balances : CurrentBalances)
      (projected_balances : ProjectedBalances)

/-- Decoder for the `MarginAccount` variant of `SecuritiesAccount`. -/
def decodeMarginAccount (j : Json) : Except SerdeError SecuritiesAccount := do
  let o ← asObjE j
  let type_ ← reqField o "type" Json.asStr?
  let account_id ← reqField o "accountId" Json.asStr?
  let round_trips ← reqField o "roundTrips" Json.asNat?
  let is_day_trader ← reqField o "isDayTrader" Json.asBool?
  let is_closing_only_restricted ← reqField o "isClosingOnlyRestricted" Json.asBool?
  let initial_balances ← reqField o "initialBalances" some >>= decodeInitialBalances
  let current_balances ← reqField o "currentBalances" some >>= decodeCurrentBalances
  let projected_balances ← reqField o "projectedBalances" some >>= decodeProjectedBalances
  return .MarginAccount type_ account_id round_trips is_day_trader
    is_closing_only_restricted initial_balances current_balances projected_balances

/-- Decoder for `SecuritiesAccount` per serde's untagged representation: each
variant is tried in order (here the single `MarginAccount`), and failure of
all variants is the untagged-mismatch error. -/
def decodeSecuritiesAccount (j : Json) : Except SerdeError SecuritiesAccount :=
  match decodeMarginAccount j with
  | .ok v => .ok v
  | .error _ => .error "data did not match any variant of untagged enum SecuritiesAccount"

/-- Embedding of `responses::Account` (src/responses.rs lines 44-48). -/
structure Account where
  securities_account : SecuritiesAccount

/-- Decoder for `Account` per its serde derive (camelCase rename). -/
def decodeAccount (j : Json) : Except SerdeError Account := do
  let o ← asObjE j
  let securities_account ← reqField o "securitiesAccount" some >>= decodeSecuritiesAccount
  return ⟨securities_account⟩

/-- Model of `serde_json::from_str::<AccessTokenResponse>`. -/
def from_str_AccessTokenResponse (s : String) : Except SerdeError AccessTokenResponse :=
  parseJson s >>= decodeAccessTokenResponse

/-- Model of `serde_json::from_str::<responses::Account>`. -/
def from_str_Account (s : String) : Except SerdeError Account :=
  parseJson s >>= decodeAccount

/-- Model of `serde_json::from_str::<Vec<responses::Account>>`. -/
def from_str_Accounts (s : String) : Except SerdeError (List Account) :=
  parseJson s >>= decodeArrOf decodeAccount

/-- Model of `serde_json::from_str::<Vec<responses::Mover>>`. -/
def from_str_Movers (s : String) : Except SerdeError (List Mover) :=
  parseJson s >>= decodeArrOf decodeMover

/-- Model of `serde_json::from_str::<GetPriceHistoryResponse>`. -/
def from_str_GetPriceHistoryResponse (s : String) :
    Except SerdeError GetPriceHistoryResponse :=
  parseJson s >>= decodeGetPriceHistoryResponse

/-- Embedding of `params::GetAccountParams` (src/params.rs lines 7-12). -/
structure GetAccountParams where
  fields : Option String

/-- Embedding of `impl Default for GetAccountParams` (src/params.rs lines
14-20). -/
def GetAccountParams.default : GetAccountParams :=
  { fields := none }

/-- Embedding of `params::GetAccountsParams` (src/params.rs lines 26-31). -/
structure GetAccountsParams where
  fields : Option String

/-- Embedding of `impl Default for GetAccountsParams` (src/params.rs lines
33-39). -/
def GetAccountsParams.default : GetAccountsParams :=
  { fields := none }

/-- Embedding of `params::GetMoversParams` (src/params.rs lines 45-55). -/
structure GetMoversParams where
  change : Option String
  direction : Option String

/-- Embedding of `impl Default for GetMoversParams` (src/params.rs lines
57-64). -/
def GetMoversParams.default : GetMoversParams :=
  { change := none, direction := none }

/-- Embedding of `params::GetPriceHistoryParams` (src/params.rs lines
70-136). -/
structure GetPriceHistoryParams where
  end_date : Option String
  frequency_type : Option String
  frequency : Option String
  need_extended_hours_data : Option Bool
  period_type : Option String
  period : Option String
  start_date : Option String

/-- Embedding of `impl Default for GetPriceHistoryParams` (src/params.rs
lines 138-150). -/
def GetPriceHistoryParams.default : GetPriceHistoryParams :=
  { end_date := none, frequency_type := none, frequency := none,
    need_extended_hours_data := none, period_type := none, period := none,
    start_date := none }

/-- Embedding of the `AccessToken` struct (src/lib.rs lines 304-310);
`expires_at` is documented there as a timestamp in milliseconds. -/
structure AccessToken where
  expires_at : Int
  scope : List String
  token : String

/-- Model of Rust's `str::split` with a single-character pattern: every
occurrence of the separator splits, empty pieces are kept, and the empty
input yields one empty piece. -/
def splitOnChar (sep : Char) : List Char → List (List Char)
  | [] => [[]]
  | c :: cs =>
    if c == sep then [] :: splitOnChar sep cs
    else
      match splitOnChar sep cs with
      | [] => [[c]]
      | p :: ps => (c :: p) :: ps

/-- Embedding of `impl From<responses::AccessTokenResponse> for AccessToken`
(src/lib.rs lines 312-322), with the wall clock passed as `now` (milliseconds
since epoch).  `response.scope.split(' ')` is `splitOnChar ' '` on the
string's characters; the per-piece `to_string` is the identity at this
level. -/
def AccessToken.fromResponse (now : Int) (response : AccessTokenResponse) :
    AccessToken :=
  { token := response.access_token,
    expires_at := now + response.expires_in,
    scope := (splitOnChar ' ' response.scope.data).map String.mk }

/-- Embedding of `AccessToken::has_expired` (src/lib.rs lines 327-329), with
the wall clock passed as `now`: the source returns
`self.expires_at >= Utc::now()...timestamp_millis()`. -/
def AccessToken.has_expired (self : AccessToken) (now : Int) : Bool :=
  decide (self.expires_at ≥ now)

/-- Embedding of `ClientError` (src/lib.rs lines 333-346). -/
inductive ClientError where
  | NotHttpOk (status : Nat) (body : String)
  | ParseResponse (e : SerdeError)
  | ReadResponse (e : IoErr)

/-- Embedding of the `Client` struct (src/lib.rs lines 114-119). -/
structure Client where
  access_token : Option AccessToken
  client_id : String
  refresh_token : String

/-- Embedding of `Client::new` (src/lib.rs lines 123-129). -/
def Client.new (client_id refresh_token : String)
    (access_token : Option AccessToken) : Client :=
  { access_token, client_id, refresh_token }

/-- Embedding of `Client::set_access_token` (src/lib.rs lines 132-136), the
only `&mut self` method: it overwrites the token slot. -/
def Client.set_access_token (self : Client) (access_token : Option AccessToken) :
    Client :=
  { self with access_token := access_token }

/-- Base path for the TDA API (src/lib.rs line 109). -/
def TDA_API_BASE : String := "https://api.tdameritrade.com/v1"

/-- An outgoing HTTP request as the `ureq` calls assemble it: method, URL,
headers, query parameters (in the order `request.query` was called) and form
fields (for `send_form`). -/
structure Request where
  httpMethod : String
  url : String
  headers : List (String × String)
  query : List (String × String)
  form : List (String × String)

/-- The transport's answer: the status code and the result of
`response.into_string()` (which can fail with an I/O error). -/
structure HttpResponse where
  status : Nat
  body : Except IoErr String

/-- Outcome of an endpoint method: `fatal` models `panic!` (carrying the
panic message), the other two are the `Result` of the source. -/
inductive MethodResult (α : Type) where
  | fatal (msg : String)
  | ok (value : α)
  | err (e : ClientError)

/-- The response-handling tail shared verbatim by all five endpoint methods
(src/lib.rs lines 148-155, 176-184, 205-213, 238-246 and 291-299): read the
body — a read failure returns `ReadResponse` before the status is examined —
then fail with `NotHttpOk` on any status other than 200, else deserialize,
turning a parse failure into `ParseResponse`. -/
def processResponse (deser : String → Except SerdeError α)
    (resp : HttpResponse) : Except ClientError α :=
  match resp.body with
  | .error e => .error (ClientError.ReadResponse e)
  | .ok body =>
    if resp.status ≠ 200 then .error (ClientError.NotHttpOk resp.status body)
    else
      match deser body with
      | .error pe => .error (ClientError.ParseResponse pe)
      | .ok v => .ok v

/-- Lift the shared tail's `Result` into a `MethodResult`. -/
def liftResult : Except ClientError α → MethodResult α
  | .ok v => .ok v
  | .error e => .err e

/-- Rust's `bool::to_string`. -/
def rustBoolToString (b : Bool) : String :=
  if b then "true" else "false"

/-- The `Authorization` header each authenticated method sets (e.g.
src/lib.rs line 170). -/
def bearerHeader (access_token : AccessToken) : List (String × String) :=
  [("Authorization", "Bearer " ++ access_token.token)]

/-- Query parameters appended by `Client::get_account` (src/lib.rs lines
172-174). -/
def getAccountQuery (params : GetAccountParams) : List (String × String) :=
  match params.fields with
  | some fields => [("fields", fields)]
  | none => []

/-- Query parameters appended by `Client::get_accounts` (src/lib.rs lines
201-203). -/
def getAccountsQuery (params : GetAccountsParams) : List (String × String) :=
  match params.fields with
  | some fields => [("fields", fields)]
  | none => []

/-- Query parameters appended by `Client::get_movers` (src/lib.rs lines
230-236), in source order: `direction` then `change`. -/
def getMoversQuery (params : GetMoversParams) : List (String × String) :=
  (match params.direction with
   | some direction => [("direction", direction)]
   | none => []) ++
  (match params.change with
   | some change => [("change", change)]
   | none => [])

/-- Query parameters appended by `Client::get_price_history` (src/lib.rs
lines 263-289), in source order; the boolean `need_extended_hours_data` is
serialized with `to_string()`. -/
def getPriceHistoryQuery (params : GetPriceHistoryParams) :
    List (String × String) :=
  (match params.period_type with
   | some period_type => [("periodType", period_type)]
   | none => []) ++
  (match params.period with
   | some period => [("period", period)]
   | none => []) ++
  (match params.frequency_type with
   | some frequency_type => [("frequencyType", frequency_type)]
   | none => []) ++
  (match params.frequency with
   | some frequency => [("frequency", frequency)]
   | none => []) ++
  (match params.end_date with
   | some end_date => [("endDate", end_date)]
   | none => []) ++
  (match params.start_date with
   | some start_date => [("startDate", start_date)]
   | none => []) ++
  (match params.need_extended_hours_data with
   | some need_extended_hours_data =>
       [("needExtendedHoursData", rustBoolToString need_extended_hours_data)]
   | none => [])

/-- Embedding of `Client::get_access_token` (src/lib.rs lines 139-156).  The
Rust method takes `&self`; the embedding threads the client state explicitly,
and the transcription of the body updates no field, so the returned state is
the receiver itself.  The raw `AccessTokenResponse` schema is returned, never
converted or installed. -/
def Client.get_access_token (self : Client) (http : Request → HttpResponse) :
    Client × Except ClientError AccessTokenResponse × List Request :=
  let url := TDA_API_BASE ++ "/oauth2/token"
  let req : Request :=
    { httpMethod := "POST", url := url, headers := [], query := [],
      form := [("grant_type", "refresh_token"),
               ("refresh_token", self.refresh_token),
               ("client_id", self.client_id)] }
  (self, processResponse from_str_AccessTokenResponse (http req), [req])

/-- Embedding of `Client::get_account` (src/lib.rs lines 161-185): panic when
no token is set (before any request), else one GET with bearer header and the
`fields` query parameter when present. -/
def Client.get_account (self : Client) (account_id : String)
    (params : GetAccountParams) (http : Request → HttpResponse) :
    Client × MethodResult Account × List Request :=
  match self.access_token with
  | none => (self, .fatal "Client does not have a token set!", [])
  | some access_token =>
    let url := TDA_API_BASE ++ "/accounts/" ++ account_id
    let req : Request :=
      { httpMethod := "GET", url := url, headers := bearerHeader access_token,
        query := getAccountQuery params, form := [] }
    (self, liftResult (processResponse from_str_Account (http req)), [req])

/-- Embedding of `Client::get_accounts` (src/lib.rs lines 190-214). -/
def Client.get_accounts (self : Client) (params : GetAccountsParams)
    (http : Request → HttpResponse) :
    Client × MethodResult (List Account) × List Request :=
  match self.access_token with
  | none => (self, .fatal "Client does not have a token set!", [])
  | some access_token =>
    let url := TDA_API_BASE ++ "/accounts"
    let req : Request :=
      { httpMethod := "GET", url := url, headers := bearerHeader access_token,
        query := getAccountsQuery params, form := [] }
    (self, liftResult (processResponse from_str_Accounts (http req)), [req])

/-- Embedding of `Client::get_movers` (src/lib.rs lines 219-247). -/
def Client.get_movers (self : Client) (index : String)
    (params : GetMoversParams) (http : Request → HttpResponse) :
    Client × MethodResult (List Mover) × List Request :=
  match self.access_token with
  | none => (self, .fatal "Client does not have a token set!", [])
  | some access_token =>
    let url := TDA_API_BASE ++ "/marketdata/" ++ index ++ "/movers"
    let req : Request :=
      { httpMethod := "GET", url := url, headers := bearerHeader access_token,
        query := getMoversQuery params, form := [] }
    (self, liftResult (processResponse from_str_Movers (http req)), [req])

/-- Embedding of `Client::get_price_history` (src/lib.rs lines 252-300). -/
def Client.get_price_history (self : Client) (symbol : String)
    (params : GetPriceHistoryParams) (http : Request → HttpResponse) :
    Client × MethodResult GetPriceHistoryResponse × List Request :=
  match self.access_token with
  | none => (self, .fatal "Client does not have a token set!", [])
  | some access_token =>
    let url := TDA_API_BASE ++ "/marketdata/" ++ symbol ++ "/pricehistory"
    let req : Request :=
      { httpMethod := "GET", url := url, headers := bearerHeader access_token,
        query := getPriceHistoryQuery params, form := [] }
    (self, liftResult (processResponse from_str_GetPriceHistoryResponse (http req)),
     [req])

/-- Serialization of an `AccessToken` to its persisted shape, following the
`#[derive(Serialize)]` on the struct (src/lib.rs lines 304-310): an object
with the fields in declaration order. -/
def AccessToken.toJson (t : AccessToken) : Json :=
  .obj [("expires_at", .num t.expires_at),
        ("scope", .arr (t.scope.map Json.str)),
        ("token", .str t.token)]

/-- Apply a fallible conversion to every element of a list, failing on the
first failure. -/
def mapMOpt (f : α → Option β) : List α → Option (List β)
  | [] => some []
  | a :: l =>
    match f a with
    | none => none
    | some b =>
      match mapMOpt f l with
      | none => none
      | some bs => some (b :: bs)

/-- Modelled from the spec: the crate derives only `Serialize` for
`AccessToken`, and reconstruction from the persisted shape
`(expires_at : integer ms epoch, scope : list of string, token : string)` is
left to the caller; this decoder follows that shape field by field. -/
def AccessToken.fromPersisted (j : Json) : Option AccessToken := do
  let o ← match j with
    | .obj fs => some fs
    | _ => none
  let expires_at ← jGet o "expires_at" >>= Json.asNum?
  let scopeJson ← jGet o "scope" >>= fun sj =>
    match sj with
    | .arr xs => some xs
    | _ => none
  let scope ← mapMOpt Json.asStr? scopeJson
  let token ← jGet o "token" >>= Json.asStr?
  return ⟨expires_at, scope, token⟩

/-- Helper for the persistence round trip: decoding the serialization of a
string list is the identity. -/
theorem mapMOpt_asStr_map_str (l : List String) :
    mapMOpt Json.asStr? (l.map Json.str) = some l := by
  induction l with
  | nil => rfl
  | cons a l ih => simp [mapMOpt, Json.asStr?, ih]

/-- C1: the claim states that `has_expired` is false while the wall clock is
strictly before `expires_at` and true once it has advanced past it.  The code
(src/lib.rs line 328) compares `expires_at >= now`, the inverse: a token whose
expiry lies strictly in the future (`expires_at` 1000, `now` 0) is reported
expired, and one whose expiry has passed (`now` 2000) is reported not
expired.  This theorem evaluates the embedded code at those failing inputs. -/
theorem C1_has_expired_inverted :
    AccessToken.has_expired ⟨1000, [], "t"⟩ 0 = true ∧
    AccessToken.has_expired ⟨1000, [], "t"⟩ 2000 = false :=
  ⟨by decide, by decide⟩

/-- C2: the claim states `expires_at = now + expires_in * 1000`.  The code
(src/lib.rs line 318) computes `now + response.expires_in`, never converting
the server-declared lifetime from seconds to milliseconds: converting the
response `(\"T1\", \"read write\", 1800)` at wall clock 0 yields
`expires_at = 1800`, not the 1800000 the claim requires. -/
theorem C2_expires_in_not_converted_to_millis :
    (AccessToken.fromResponse 0 ⟨"T1", "read write", 1800⟩).expires_at = 1800 ∧
    ((0 : Int) + 1800 * 1000 = 1800000) ∧ ((1800 : Int) ≠ 1800000) :=
  ⟨rfl, by norm_num, by norm_num⟩

/-- C3: for every endpoint method, a response whose status differs from 200
and whose body is readable surfaces as `NotHttpOk` carrying exactly that
status and the body verbatim, and exactly one request is issued (no
retry). -/
theorem C3_non200_yields_NotHttpOk_no_retry
    (s : Nat) (hs : s ≠ 200) (b : String) (tok : AccessToken)
    (atok : Option AccessToken) (cid rtok acct idx sym : String)
    (pa : GetAccountParams) (pas : GetAccountsParams) (pm : GetMoversParams)
    (pph : GetPriceHistoryParams) :
    ((Client.get_access_token ⟨atok, cid, rtok⟩ (fun _ => ⟨s, .ok b⟩)).2.1 =
        .error (.NotHttpOk s b) ∧
      (Client.get_access_token ⟨atok, cid, rtok⟩ (fun _ => ⟨s, .ok b⟩)).2.2.length = 1) ∧
    ((Client.get_account ⟨some tok, cid, rtok⟩ acct pa (fun _ => ⟨s, .ok b⟩)).2.1 =
        .err (.NotHttpOk s b) ∧
      (Client.get_account ⟨some tok, cid, rtok⟩ acct pa (fun _ => ⟨s, .ok b⟩)).2.2.length = 1) ∧
    ((Client.get_accounts ⟨some tok, cid, rtok⟩ pas (fun _ => ⟨s, .ok b⟩)).2.1 =
        .err (.NotHttpOk s b) ∧
      (Client.get_accounts ⟨some tok, cid, rtok⟩ pas (fun _ => ⟨s, .ok b⟩)).2.2.length = 1) ∧
    ((Client.get_movers ⟨some tok, cid, rtok⟩ idx pm (fun _ => ⟨s, .ok b⟩)).2.1 =
        .err (.NotHttpOk s b) ∧
      (Client.get_movers ⟨some tok, cid, rtok⟩ idx pm (fun _ => ⟨s, .ok b⟩)).2.2.length = 1) ∧
    ((Client.get_price_history ⟨some tok, cid, rtok⟩ sym pph (fun _ => ⟨s, .ok b⟩)).2.1 =
        .err (.NotHttpOk s b) ∧
      (Client.get_price_history ⟨some tok, cid, rtok⟩ sym pph (fun _ => ⟨s, .ok b⟩)).2.2.length = 1) := by
  refine ⟨⟨?_, rfl⟩, ⟨?_, rfl⟩, ⟨?_, rfl⟩, ⟨?_, rfl⟩, ⟨?_, rfl⟩⟩
  · simp [Client.get_access_token, processResponse, hs]
  · simp [Client.get_account, processResponse, liftResult, hs]
  · simp [Client.get_accounts, processResponse, liftResult, hs]
  · simp [Client.get_movers, processResponse, liftResult, hs]
  · simp [Client.get_price_history, processResponse, liftResult, hs]

/-- Concrete token used by the witnesses. -/
def wTok : AccessToken := ⟨0, [], "WTOKEN"⟩

/-- Concrete non-200 response body used by the C3 witness. -/
def wBody401 : String := "\x7b\"error\":\"invalid_grant\"\x7d"

/-- A body that is valid JSON (an empty object) but matches none of the
response schemas. -/
def wEmptyObj : String := "\x7b\x7d"

/-- A body that is valid JSON but lacks the required `symbol` field of the
price-history schema. -/
def wNoSymbolBody : String := "\x7b\"candles\":[],\"empty\":true\x7d"

/-- Witness for C3: a 401 response with body containing invalid_grant yields
`NotHttpOk 401` with that exact body on every endpoint method, with exactly
one request issued. -/
theorem C3_non200_witness :
    ((401 : Nat) ≠ 200) ∧
    (((Client.get_access_token ⟨none, "CID", "RTOK"⟩ (fun _ => ⟨401, .ok wBody401⟩)).2.1 =
        .error (.NotHttpOk 401 wBody401) ∧
      (Client.get_access_token ⟨none, "CID", "RTOK"⟩ (fun _ => ⟨401, .ok wBody401⟩)).2.2.length = 1) ∧
    ((Client.get_account ⟨some wTok, "CID", "RTOK"⟩ "ACC" GetAccountParams.default (fun _ => ⟨401, .ok wBody401⟩)).2.1 =
        .err (.NotHttpOk 401 wBody401) ∧
      (Client.get_account ⟨some wTok, "CID", "RTOK"⟩ "ACC" GetAccountParams.default (fun _ => ⟨401, .ok wBody401⟩)).2.2.length = 1) ∧
    ((Client.get_accounts ⟨some wTok, "CID", "RTOK"⟩ GetAccountsParams.default (fun _ => ⟨401, .ok wBody401⟩)).2.1 =
        .err (.NotHttpOk 401 wBody401) ∧
      (Client.get_accounts ⟨some wTok, "CID", "RTOK"⟩ GetAccountsParams.default (fun _ => ⟨401, .ok wBody401⟩)).2.2.length = 1) ∧
    ((Client.get_movers ⟨some wTok, "CID", "RTOK"⟩ "$DJI" GetMoversParams.default (fun _ => ⟨401, .ok wBody401⟩)).2.1 =
        .err (.NotHttpOk 401 wBody401) ∧
      (Client.get_movers ⟨some wTok, "CID", "RTOK"⟩ "$DJI" GetMoversParams.default (fun _ => ⟨401, .ok wBody401⟩)).2.2.length = 1) ∧
    ((Client.get_price_history ⟨some wTok, "CID", "RTOK"⟩ "AAPL" GetPriceHistoryParams.default (fun _ => ⟨401, .ok wBody401⟩)).2.1 =
        .err (.NotHttpOk 401 wBody401) ∧
      (Client.get_price_history ⟨some wTok, "CID", "RTOK"⟩ "AAPL" GetPriceHistoryParams.default (fun _ => ⟨401, .ok wBody401⟩)).2.2.length = 1)) :=
  ⟨by decide,
   C3_non200_yields_NotHttpOk_no_retry 401 (by decide) wBody401 wTok none
     "CID" "RTOK" "ACC" "$DJI" "AAPL" GetAccountParams.default
     GetAccountsParams.default GetMoversParams.default
     GetPriceHistoryParams.default⟩

/-- C4: for every endpoint method, a 200 response whose body the schema
deserializer rejects yields `ParseResponse` carrying exactly the underlying
deserialization failure — never a panic and never a defaulted success — and
`ParseResponse` is a constructor distinct from `NotHttpOk` and
`ReadResponse`. -/
theorem C4_parse_failure_yields_ParseResponse
    (tok : AccessToken) (atok : Option AccessToken)
    (cid rtok acct idx sym : String)
    (pa : GetAccountParams) (pas : GetAccountsParams) (pm : GetMoversParams)
    (pph : GetPriceHistoryParams)
    (b1 b2 b3 b4 b5 : String) (e1 e2 e3 e4 e5 : SerdeError)
    (h1 : from_str_AccessTokenResponse b1 = .error e1)
    (h2 : from_str_Account b2 = .error e2)
    (h3 : from_str_Accounts b3 = .error e3)
    (h4 : from_str_Movers b4 = .error e4)
    (h5 : from_str_GetPriceHistoryResponse b5 = .error e5) :
    (Client.get_access_token ⟨atok, cid, rtok⟩ (fun _ => ⟨200, .ok b1⟩)).2.1 =
      .error (.ParseResponse e1) ∧
    (Client.get_account ⟨some tok, cid, rtok⟩ acct pa (fun _ => ⟨200, .ok b2⟩)).2.1 =
      .err (.ParseResponse e2) ∧
    (Client.get_accounts ⟨some tok, cid, rtok⟩ pas (fun _ => ⟨200, .ok b3⟩)).2.1 =
      .err (.ParseResponse e3) ∧
    (Client.get_movers ⟨some tok, cid, rtok⟩ idx pm (fun _ => ⟨200, .ok b4⟩)).2.1 =
      .err (.ParseResponse e4) ∧
    (Client.get_price_history ⟨some tok, cid, rtok⟩ sym pph (fun _ => ⟨200, .ok b5⟩)).2.1 =
      .err (.ParseResponse e5) ∧
    (∀ st bo, ClientError.ParseResponse e5 ≠ ClientError.NotHttpOk st bo) ∧
    (∀ ioe, ClientError.ParseResponse e5 ≠ ClientError.ReadResponse ioe) := by
  refine ⟨?_, ?_, ?_, ?_, ?_, ?_, ?_⟩
  · simp [Client.get_access_token, processResponse, h1]
  · simp [Client.get_account, processResponse, liftResult, h2]
  · simp [Client.get_accounts, processResponse, liftResult, h3]
  · simp [Client.get_movers, processResponse, liftResult, h4]
  · simp [Client.get_price_history, processResponse, liftResult, h5]
  · intro st bo h
    exact ClientError.noConfusion h
  · intro ioe h
    exact ClientError.noConfusion h

/-- Witness for C4: concrete 200 responses — an empty JSON object for the
first four schemas, and a price-history body that is valid JSON but lacks
`symbol` — each yield `ParseResponse` with the decoder's failure. -/
theorem C4_parse_failure_witness :
    (from_str_AccessTokenResponse wEmptyObj = .error "missing field access_token") ∧
    (from_str_Account wEmptyObj = .error "missing field securitiesAccount") ∧
    (from_str_Accounts wEmptyObj = .error "expected an array") ∧
    (from_str_Movers wEmptyObj = .error "expected an array") ∧
    (from_str_GetPriceHistoryResponse wNoSymbolBody = .error "missing field symbol") ∧
    ((Client.get_access_token ⟨none, "CID", "RTOK"⟩ (fun _ => ⟨200, .ok wEmptyObj⟩)).2.1 =
      .error (.ParseResponse "missing field access_token") ∧
    (Client.get_account ⟨some wTok, "CID", "RTOK"⟩ "ACC" GetAccountParams.default (fun _ => ⟨200, .ok wEmptyObj⟩)).2.1 =
      .err (.ParseResponse "missing field securitiesAccount") ∧
    (Client.get_accounts ⟨some wTok, "CID", "RTOK"⟩ GetAccountsParams.default (fun _ => ⟨200, .ok wEmptyObj⟩)).2.1 =
      .err (.ParseResponse "expected an array") ∧
    (Client.get_movers ⟨some wTok, "CID", "RTOK"⟩ "$DJI" GetMoversParams.default (fun _ => ⟨200, .ok wEmptyObj⟩)).2.1 =
      .err (.ParseResponse "expected an array") ∧
    (Client.get_price_history ⟨some wTok, "CID", "RTOK"⟩ "AAPL" GetPriceHistoryParams.default (fun _ => ⟨200, .ok wNoSymbolBody⟩)).2.1 =
      .err (.ParseResponse "missing field symbol") ∧
    (∀ st bo, ClientError.ParseResponse "missing field symbol" ≠ ClientError.NotHttpOk st bo) ∧
    (∀ ioe, ClientError.ParseResponse "missing field symbol" ≠ ClientError.ReadResponse ioe)) :=
  ⟨rfl, rfl, rfl, rfl, rfl,
   C4_parse_failure_yields_ParseResponse wTok none "CID" "RTOK" "ACC" "$DJI"
     "AAPL" GetAccountParams.default GetAccountsParams.default
     GetMoversParams.default GetPriceHistoryParams.default
     wEmptyObj wEmptyObj wEmptyObj wEmptyObj wNoSymbolBody
     "missing field access_token" "missing field securitiesAccount"
     "expected an array" "expected an array" "missing field symbol"
     rfl rfl rfl rfl rfl⟩

/-- C5: every authenticated method invoked on a client whose token slot is
`None` aborts with the panic message before any request is issued (the request
list is empty for every transport oracle), and the fatal outcome is not a
recoverable `err` or a success. -/
theorem C5_missing_token_is_fatal
    (cid rtok acct idx sym : String) (pa : GetAccountParams)
    (pas : GetAccountsParams) (pm : GetMoversParams)
    (pph : GetPriceHistoryParams) (http : Request → HttpResponse) :
    Client.get_account ⟨none, cid, rtok⟩ acct pa http =
      (⟨none, cid, rtok⟩, .fatal "Client does not have a token set!", []) ∧
    Client.get_accounts ⟨none, cid, rtok⟩ pas http =
      (⟨none, cid, rtok⟩, .fatal "Client does not have a token set!", []) ∧
    Client.get_movers ⟨none, cid, rtok⟩ idx pm http =
      (⟨none, cid, rtok⟩, .fatal "Client does not have a token set!", []) ∧
    Client.get_price_history ⟨none, cid, rtok⟩ sym pph http =
      (⟨none, cid, rtok⟩, .fatal "Client does not have a token set!", []) ∧
    (∀ e : ClientError, (MethodResult.fatal "Client does not have a token set!" :
        MethodResult Account) ≠ .err e) ∧
    (∀ v : Account, (MethodResult.fatal "Client does not have a token set!" :
        MethodResult Account) ≠ .ok v) := by
  refine ⟨rfl, rfl, rfl, rfl, ?_, ?_⟩
  · intro e h
    exact MethodResult.noConfusion h
  · intro v h
    exact MethodResult.noConfusion h

/-- C6: the scope of a token built from a token-exchange response is the
scope string split on single spaces, in order: `"read write trade"` gives
exactly `["read", "write", "trade"]` and the empty scope string gives exactly
one empty entry. -/
theorem C6_scope_split_on_spaces (now : Int) (tok : String) (e : Int) :
    (AccessToken.fromResponse now ⟨tok, "read write trade", e⟩).scope =
      ["read", "write", "trade"] ∧
    (AccessToken.fromResponse now ⟨tok, "", e⟩).scope = [""] :=
  ⟨rfl, rfl⟩

/-- C7: every parameter builder yields zero query parameters from its
all-absent default; setting exactly one field yields exactly the one query
parameter under its documented camelCase wire name, with booleans serialized
as the literal strings true and false. -/
theorem C7_param_builders_wire_mapping (v : String) :
    getAccountQuery GetAccountParams.default = [] ∧
    getAccountQuery ⟨some v⟩ = [("fields", v)] ∧
    getAccountsQuery GetAccountsParams.default = [] ∧
    getAccountsQuery ⟨some v⟩ = [("fields", v)] ∧
    getMoversQuery GetMoversParams.default = [] ∧
    getMoversQuery ⟨some v, none⟩ = [("change", v)] ∧
    getMoversQuery ⟨none, some v⟩ = [("direction", v)] ∧
    getPriceHistoryQuery GetPriceHistoryParams.default = [] ∧
    getPriceHistoryQuery { GetPriceHistoryParams.default with period_type := some v } =
      [("periodType", v)] ∧
    getPriceHistoryQuery { GetPriceHistoryParams.default with period := some v } =
      [("period", v)] ∧
    getPriceHistoryQuery { GetPriceHistoryParams.default with frequency_type := some v } =
      [("frequencyType", v)] ∧
    getPriceHistoryQuery { GetPriceHistoryParams.default with frequency := some v } =
      [("frequency", v)] ∧
    getPriceHistoryQuery { GetPriceHistoryParams.default with end_date := some v } =
      [("endDate", v)] ∧
    getPriceHistoryQuery { GetPriceHistoryParams.default with start_date := some v } =
      [("startDate", v)] ∧
    getPriceHistoryQuery { GetPriceHistoryParams.default with need_extended_hours_data := some true } =
      [("needExtendedHoursData", "true")] ∧
    getPriceHistoryQuery { GetPriceHistoryParams.default with need_extended_hours_data := some false } =
      [("needExtendedHoursData", "false")] :=
  ⟨rfl, rfl, rfl, rfl, rfl, rfl, rfl, rfl, rfl, rfl, rfl, rfl, rfl, rfl, rfl, rfl⟩

/-- C8: serializing an `AccessToken` to its persisted shape (the derived
`Serialize` output) and reconstructing it (decoder modelled from the spec's
persisted shape) yields a token with identical expiry, scope list and token
string. -/
theorem C8_persisted_round_trip (t : AccessToken) :
    AccessToken.fromPersisted (AccessToken.toJson t) = some t := by
  simp [AccessToken.fromPersisted, AccessToken.toJson, jGet,
    mapMOpt_asStr_map_str, Json.asNum?, Json.asStr?, Option.bind]

/-- C9: `get_access_token` leaves every field of the client unchanged for
every transport outcome — the returned state is the receiver, and in
particular the token slot is not overwritten with the fetched response. -/
theorem C9_get_access_token_preserves_client (c : Client)
    (http : Request → HttpResponse) :
    (c.get_access_token http).1 = c ∧
    (c.get_access_token http).1.access_token = c.access_token ∧
    (c.get_access_token http).1.client_id = c.client_id ∧
    (c.get_access_token http).1.refresh_token = c.refresh_token :=
  ⟨rfl, rfl, rfl, rfl⟩

/-- C10: in every endpoint method the body-read failure is returned before
the status code is examined, so a failed read yields `ReadResponse` for every
status value, including non-200 ones. -/
theorem C10_read_error_takes_priority
    (s : Nat) (ioe : IoErr) (tok : AccessToken) (atok : Option AccessToken)
    (cid rtok acct idx sym : String) (pa : GetAccountParams)
    (pas : GetAccountsParams) (pm : GetMoversParams)
    (pph : GetPriceHistoryParams) :
    (Client.get_access_token ⟨atok, cid, rtok⟩ (fun _ => ⟨s, .error ioe⟩)).2.1 =
      .error (.ReadResponse ioe) ∧
    (Client.get_account ⟨some tok, cid, rtok⟩ acct pa (fun _ => ⟨s, .error ioe⟩)).2.1 =
      .err (.ReadResponse ioe) ∧
    (Client.get_accounts ⟨some tok, cid, rtok⟩ pas (fun _ => ⟨s, .error ioe⟩)).2.1 =
      .err (.ReadResponse ioe) ∧
    (Client.get_movers ⟨some tok, cid, rtok⟩ idx pm (fun _ => ⟨s, .error ioe⟩)).2.1 =
      .err (.ReadResponse ioe) ∧
    (Client.get_price_history ⟨some tok, cid, rtok⟩ sym pph (fun _ => ⟨s, .error ioe⟩)).2.1 =
      .err (.ReadResponse ioe) :=
  ⟨rfl, rfl, rfl, rfl, rfl⟩
